import Mathlib

/-!
Verification of the automlbenchmark execution-orchestration core and adapter
protocol against its natural-language specification.

The Python sources are shallowly embedded:
  * `amlb/runners/docker.py` — container start (interrupt guard), image
    existence check, image build command, instance naming;
  * `frameworks/RandomForest/exec.py`, `frameworks/constantpredictor/exec.py`,
    `frameworks/flaml/exec.py` — the adapter `run` functions (train / predict
    lifecycle, best-effort model persistence);
  * `frameworks/TunedRandomForest/exec.py` — `pick_values_uniform`.

External effects (subprocess invocations, the filesystem, fitted estimator
objects) are represented by explicit environment records; durations are
exact rationals.  The float arithmetic of `pick_values_uniform` is embedded
via an explicit IEEE-754 binary64 rounding model (`roundB64`): every float
value is the exact rational it denotes, and every operation rounds its exact
result to 53 significant bits, ties to even.
-/

/-! ## Common: outcomes of external commands

Running an external command either completes normally or raises; the raised
error is any Python exception (`KeyboardInterrupt` included), carried here as
a message string. -/

/-- Events observable while an adapter `run` executes, in order of occurrence:
a model fit, a prediction call, an attempt to persist the fitted model, an
attempt to load a persisted model, and the `save_predictions` call of the
constantpredictor adapter (carrying the emitted predictions). -/
inductive Event where
  | fit : Event
  | predictCall : Event
  | persistAttempt : Event
  | loadAttempt : Event
  | savePreds : List ℚ → Event
deriving DecidableEq, Repr

/-! ## InterruptGuard: `DockerBenchmark._start_container`, docker.py lines 71-79

```python
try:
    run_cmd(cmd, _capture_error_=False)
except:  # also want to handle KeyboardInterrupt
    try:
        run_cmd(f"docker kill \x7binst_name\x7d")
    except Exception:
        pass
    finally:
        raise
```
-/

/-- Observable result of the guarded container run: how many times
`docker kill` was invoked, and the outcome propagated to the caller. -/
structure GuardResult where
  kill_invocations : ℕ
  outcome : Except String Unit
deriving Repr

/-- Embedding of the `try/except` block of `DockerBenchmark._start_container`
(docker.py lines 71-79).  `runOutcome` is the outcome of the blocking
`run_cmd(cmd)`; `killOutcome` is the outcome the `docker kill` invocation
would have.  On normal completion of the run nothing else happens; on any
raised error the kill command is invoked once, its own failure is caught and
discarded, and the original error is re-raised. -/
def startContainerGuard (runOutcome killOutcome : Except String Unit) :
    GuardResult :=
  match runOutcome with
  | Except.ok _ => { kill_invocations := 0, outcome := Except.ok () }
  | Except.error e =>
    match killOutcome with
    | Except.ok _ => { kill_invocations := 1, outcome := Except.error e }
    | Except.error _ => { kill_invocations := 1, outcome := Except.error e }

/-! ## Instance naming: docker.py line 53

```python
inst_name = f"\x7bself.sid\x7d.\x7bstr_sanitize(str_digest(script_params))\x7d"
```

`str_digest` and `str_sanitize` live in `amlb.utils`, which is not part of
the sources at hand; they are taken as abstract function parameters.  The
specification describes the digest as a deterministic, collision-resistant
fingerprint; collision resistance is idealized as injectivity of
`sanitize ∘ digest`. -/

/-- Embedding of docker.py line 53: the docker instance name for a run. -/
def inst_name (digest sanitize : String → String) (sid script_params : String) :
    String :=
  sid ++ "." ++ sanitize (digest script_params)

/-! ## Image existence check: `DockerBenchmark._image_exists`, docker.py lines 81-92

```python
output, _ = run_cmd(f"docker images -q \x7bimage\x7d")
if re.match(r'^[0-9a-f]+$', output.strip()):
    return True
try:
    run_cmd(f"docker pull \x7bimage\x7d", _live_output_=True)
    return True
except Exception:
    pass
return False
```
-/

/-- Characters removed by Python `str.strip()`. -/
def pyWhitespace : List Char := [' ', '\t', '\n', '\r', '\x0b', '\x0c']

/-- Python `str.strip()`: drop leading and trailing whitespace. -/
def pyStrip (s : String) : String :=
  ⟨(s.data.dropWhile (· ∈ pyWhitespace)).reverse.dropWhile (· ∈ pyWhitespace)
    |>.reverse⟩

/-- Membership in the character class of `r'[0-9a-f]'`: a decimal digit or a
lowercase hex letter. -/
def isHexDigitChar (c : Char) : Bool :=
  ('0' ≤ c && c ≤ '9') || ('a' ≤ c && c ≤ 'f')

/-- Whether `re.match(r'^[0-9a-f]+$', s)` succeeds on a string with no
trailing newline: `s` is nonempty and consists of lowercase hex digits. -/
def isHexId (s : String) : Bool :=
  !s.data.isEmpty && s.data.all isHexDigitChar

/-- External-command environment of `_image_exists`: the outcome of
`docker images -q <image>` (its captured stdout on success) and the outcome
of `docker pull <image>`. -/
structure ImageExistsEnv where
  images_query : Except String String
  pull : Except String Unit

/-- Embedding of `DockerBenchmark._image_exists` (docker.py lines 81-92).
The local image query is NOT guarded by a `try`: its failure propagates.
A pull failure is caught and yields `false`. -/
def image_exists (env : ImageExistsEnv) : Except String Bool :=
  match env.images_query with
  | Except.error e => Except.error e
  | Except.ok output =>
    if isHexId (pyStrip output) then Except.ok true
    else
      match env.pull with
      | Except.ok _ => Except.ok true
      | Except.error _ => Except.ok false

/-! ## Image build command: `DockerBenchmark._run_container_build_command`, docker.py lines 94-102

```python
run_cmd("docker build \x7boptions\x7d -t \x7bcontainer\x7d -f \x7bscript\x7d .".format(
    options="" if cache else "--no-cache",
    container=image,
    script=self._script), ...)
```
-/

/-- Embedding of the command string issued by
`DockerBenchmark._run_container_build_command` (docker.py lines 96-99). -/
def docker_build_cmd (image script : String) (cache : Bool) : String :=
  "docker build " ++ (if cache then "" else "--no-cache") ++ " -t " ++ image
    ++ " -f " ++ script ++ " ."

/-! ## Container start: `DockerBenchmark._start_container`, docker.py lines 45-72

```python
in_dir = rconfig().input_dir
out_dir = rconfig().output_dir
custom_dir = rconfig().user_dir
for d in [in_dir, out_dir, custom_dir]:
    touch(d, as_dir=True)
script_extra_params = "--session="
inst_name = f"\x7bself.sid\x7d.\x7bstr_sanitize(str_digest(script_params))\x7d"
cmd = ("docker run --name \x7bname\x7d \x7boptions\x7d "
       "-v \x7binput\x7d:/input -v \x7boutput\x7d:/output -v \x7bcustom\x7d:/custom "
       "--rm \x7bimage\x7d \x7bparams\x7d -i /input -o /output -u /custom "
       "-s skip -Xrun_mode=docker \x7bextra_params\x7d").format(
    name=inst_name, options=..., input=in_dir, output=self.output_dirs.session,
    custom=custom_dir, image=self.image, params=script_params,
    extra_params=script_extra_params)
...
run_cmd(cmd, _capture_error_=False)
```
Note the output volume binding uses `self.output_dirs.session`, not the
`out_dir` that was created; the session directory is modelled as its own
configuration field. -/

/-- Configuration read by `_start_container`: the three configured
directories, the session output directory bound into the container, the
extra docker options, the image name, and the session id. -/
structure StartContainerConfig where
  input_dir : String
  output_dir : String
  user_dir : String
  session_dir : String
  run_extra_options : String
  image : String
  sid : String
deriving DecidableEq, Repr

/-- Side effects of `_start_container`, in order: directory creations
(`touch(d, as_dir=True)`) and external command invocations (`run_cmd`). -/
inductive Effect where
  | mkdirp : String → Effect
  | cmd : String → Effect
deriving DecidableEq, Repr

/-- The `(host_dir, container_path)` volume bindings named by the
`-v` options of the docker run command (docker.py line 56). -/
def volume_bindings (cfg : StartContainerConfig) : List (String × String) :=
  [(cfg.input_dir, "/input"), (cfg.session_dir, "/output"),
   (cfg.user_dir, "/custom")]

/-- Embedding of the `docker run` command string built by `_start_container`
(docker.py lines 54-67). -/
def docker_run_command (digest sanitize : String → String)
    (cfg : StartContainerConfig) (script_params : String) : String :=
  "docker run --name " ++ inst_name digest sanitize cfg.sid script_params
    ++ " " ++ cfg.run_extra_options
    ++ " -v " ++ cfg.input_dir ++ ":/input -v " ++ cfg.session_dir
    ++ ":/output -v " ++ cfg.user_dir ++ ":/custom --rm " ++ cfg.image
    ++ " " ++ script_params
    ++ " -i /input -o /output -u /custom -s skip -Xrun_mode=docker "
    ++ "--session="

/-- Ordered effect trace of `_start_container` up to and including the
issuing of the docker run command (docker.py lines 47-72). -/
def start_container_effects (digest sanitize : String → String)
    (cfg : StartContainerConfig) (script_params : String) : List Effect :=
  [Effect.mkdirp cfg.input_dir, Effect.mkdirp cfg.output_dir,
   Effect.mkdirp cfg.user_dir,
   Effect.cmd (docker_run_command digest sanitize cfg script_params)]

/-- Filesystem semantics of one effect: `touch(d, as_dir=True)` creates the
directory if absent; a command invocation does not change the set of
directories. -/
def applyEffect (fs : List String) : Effect → List String
  | Effect.mkdirp d => if d ∈ fs then fs else d :: fs
  | Effect.cmd _ => fs

/-- The set of existing directories at the moment the first external command
of the trace is issued, starting from directories `fs0`. -/
def fsAtFirstCmd (fs0 : List String) (effs : List Effect) : List String :=
  (effs.takeWhile fun e => match e with
    | Effect.cmd _ => false
    | _ => true).foldl applyEffect fs0


/-! ## Adapter protocol: the framework `run` functions

`frameworks/RandomForest/exec.py`, `frameworks/constantpredictor/exec.py` and
`frameworks/flaml/exec.py` share the lifecycle

```python
if config.task_type == 'train':
    <fit, time it>
    model_path = tempfile.mkdtemp()
    try:
        <persist model under model_path>
    except:
        log.exception(...)
        model_path = None
elif config.task_type == 'predict':
    <load model from config.model_path>   # no try: errors propagate
    training_duration = 0.0
    model_path = None
else:
    raise ValueError(f"Unknown task_type: \x7bconfig.task_type\x7d")
<predict, time it>
<emit result(..., model_path=model_path)>
```

Fitted estimator objects are represented by natural-number identities; their
behaviour (predictions, probabilities, ensemble size) is looked up in an
explicit environment. -/

/-- The adapter-facing slice of `TaskConfig` that the `run` functions read. -/
structure TaskConfig where
  task_type : String
  model_path : Option String
  type : String
  seed : ℕ
  cores : ℕ
  max_runtime_seconds : ℕ
  metric : String
deriving DecidableEq, Repr

/-- Python exceptions the embedded adapter code can raise:
`os.path.join(None, ...)` raises `TypeError`; opening a missing model file
raises `FileNotFoundError`; the unknown-task-type branch raises
`ValueError`. -/
inductive AdapterError where
  | typeError : AdapterError
  | fileNotFound : String → AdapterError
  | valueError : String → AdapterError
deriving DecidableEq, Repr

/-- Environment of one adapter run: the estimator produced by fitting, the
measured durations, the `tempfile.mkdtemp()` result, whether persisting the
model completes, the store of previously persisted models (path ↦ model),
and the behaviour of each estimator on the test data. -/
structure AdapterEnv where
  trained_model : ℕ
  fit_duration : ℚ
  predict_duration : ℚ
  tmpdir : String
  persist_ok : Bool
  fs : String → Option ℕ
  predict_of : ℕ → List ℚ
  proba_of : ℕ → List ℚ
  labels_of : ℕ → List ℚ
  models_count_of : ℕ → ℕ

/-- The record passed to `result(...)` by `RandomForest/exec.py`. -/
structure RunResult where
  predictions : List ℚ
  probabilities : Option (List ℚ)
  models_count : ℕ
  training_duration : ℚ
  predict_duration : ℚ
  model_path : Option String
deriving DecidableEq, Repr

/-- Outcome of one adapter run: the value returned or the exception raised,
together with the ordered trace of observable events. -/
structure AdapterOutcome (R : Type) where
  result : Except AdapterError R
  events : List Event

/-- Embedding of `run` from `frameworks/RandomForest/exec.py` (lines 21-81).
The train branch fits, then attempts to persist (`tmp.mkdtemp()` followed by
a guarded `pickle.dump`, a failure downgrading `model_path` to `None`); the
predict branch opens `os.path.join(config.model_path, 'model.pkl')` with no
guard; any other task type raises `ValueError` before any fit or predict. -/
def rf_run (env : AdapterEnv) (config : TaskConfig) : AdapterOutcome RunResult :=
  if config.task_type = "train" then
    let rf := env.trained_model
    let training_duration := env.fit_duration
    let model_path : Option String :=
      if env.persist_ok then some env.tmpdir else none
    let predictions := env.predict_of rf
    let probabilities : Option (List ℚ) :=
      if config.type = "classification" then some (env.proba_of rf) else none
    { result := Except.ok
        { predictions := predictions
          probabilities := probabilities
          models_count := env.models_count_of rf
          training_duration := training_duration
          predict_duration := env.predict_duration
          model_path := model_path }
      events := [Event.fit, Event.persistAttempt, Event.predictCall] }
  else if config.task_type = "predict" then
    match config.model_path with
    | none =>
      { result := Except.error AdapterError.typeError
        events := [Event.loadAttempt] }
    | some p =>
      match env.fs (p ++ "/model.pkl") with
      | none =>
        { result := Except.error (AdapterError.fileNotFound (p ++ "/model.pkl"))
          events := [Event.loadAttempt] }
      | some rf =>
        let predictions := env.predict_of rf
        let probabilities : Option (List ℚ) :=
          if config.type = "classification" then some (env.proba_of rf)
          else none
        { result := Except.ok
            { predictions := predictions
              probabilities := probabilities
              models_count := env.models_count_of rf
              training_duration := 0
              predict_duration := env.predict_duration
              model_path := none }
          events := [Event.loadAttempt, Event.predictCall] }
  else
    { result := Except.error
        (AdapterError.valueError ("Unknown task_type: " ++ config.task_type))
      events := [] }

/-- The dict returned by `run` in `constantpredictor/exec.py` (lines 64-69);
predictions are not part of it — they are handed to `save_predictions`,
which the event trace records. -/
structure CPResult where
  models_count : ℕ
  training_duration : ℚ
  predict_duration : ℚ
  model_path : Option String
deriving DecidableEq, Repr

/-- Embedding of `run` from `frameworks/constantpredictor/exec.py`
(lines 16-69): same lifecycle as the RandomForest adapter, but the
predictions are emitted through `save_predictions` (traced as
`Event.savePreds`) and the returned dict reports `models_count=1`. -/
def cp_run (env : AdapterEnv) (config : TaskConfig) : AdapterOutcome CPResult :=
  if config.task_type = "train" then
    let predictor := env.trained_model
    let training_duration := env.fit_duration
    let model_path : Option String :=
      if env.persist_ok then some env.tmpdir else none
    let predictions := env.predict_of predictor
    { result := Except.ok
        { models_count := 1
          training_duration := training_duration
          predict_duration := env.predict_duration
          model_path := model_path }
      events := [Event.fit, Event.persistAttempt, Event.predictCall,
                 Event.savePreds predictions] }
  else if config.task_type = "predict" then
    match config.model_path with
    | none =>
      { result := Except.error AdapterError.typeError
        events := [Event.loadAttempt] }
    | some p =>
      match env.fs (p ++ "/model.pkl") with
      | none =>
        { result := Except.error (AdapterError.fileNotFound (p ++ "/model.pkl"))
          events := [Event.loadAttempt] }
      | some predictor =>
        let predictions := env.predict_of predictor
        { result := Except.ok
            { models_count := 1
              training_duration := 0
              predict_duration := env.predict_duration
              model_path := none }
          events := [Event.loadAttempt, Event.predictCall,
                     Event.savePreds predictions] }
  else
    { result := Except.error
        (AdapterError.valueError ("Unknown task_type: " ++ config.task_type))
      events := [] }

/-- The record passed to `result(...)` by `flaml/exec.py` (lines 83-93),
which additionally carries `probabilities_labels`. -/
structure FlamlResult where
  predictions : List ℚ
  probabilities : Option (List ℚ)
  probabilities_labels : Option (List ℚ)
  models_count : ℕ
  training_duration : ℚ
  predict_duration : ℚ
  model_path : Option String
deriving DecidableEq, Repr

/-- Embedding of `run` from `frameworks/flaml/exec.py` (lines 14-93): same
lifecycle; the environment absorbs the AutoML fit and the metric mapping of
the train branch. -/
def flaml_run (env : AdapterEnv) (config : TaskConfig) :
    AdapterOutcome FlamlResult :=
  if config.task_type = "train" then
    let aml := env.trained_model
    let training_duration := env.fit_duration
    let model_path : Option String :=
      if env.persist_ok then some env.tmpdir else none
    let predictions := env.predict_of aml
    let isc := config.type = "classification"
    { result := Except.ok
        { predictions := predictions
          probabilities := if isc then some (env.proba_of aml) else none
          probabilities_labels := if isc then some (env.labels_of aml) else none
          models_count := env.models_count_of aml
          training_duration := training_duration
          predict_duration := env.predict_duration
          model_path := model_path }
      events := [Event.fit, Event.persistAttempt, Event.predictCall] }
  else if config.task_type = "predict" then
    match config.model_path with
    | none =>
      { result := Except.error AdapterError.typeError
        events := [Event.loadAttempt] }
    | some p =>
      match env.fs (p ++ "/model.pkl") with
      | none =>
        { result := Except.error (AdapterError.fileNotFound (p ++ "/model.pkl"))
          events := [Event.loadAttempt] }
      | some aml =>
        let predictions := env.predict_of aml
        let isc := config.type = "classification"
        { result := Except.ok
            { predictions := predictions
              probabilities := if isc then some (env.proba_of aml) else none
              probabilities_labels :=
                if isc then some (env.labels_of aml) else none
              models_count := env.models_count_of aml
              training_duration := 0
              predict_duration := env.predict_duration
              model_path := none }
          events := [Event.loadAttempt, Event.predictCall] }
  else
    { result := Except.error
        (AdapterError.valueError ("Unknown task_type: " ++ config.task_type))
      events := [] }

/-! ## `pick_values_uniform`: `frameworks/TunedRandomForest/exec.py` lines 31-34

```python
def pick_values_uniform(start: int, end: int, length: int):
    d = (end - start) / (length - 1)
    uniform_floats = [start + i * d for i in range(length)]
    return sorted(set([int(f) for f in uniform_floats]))
```

The arithmetic here is CPython float arithmetic, i.e. IEEE-754 binary64: the
true division of the two integers, the int-to-float conversions, the
multiplication and the addition each produce the binary64 value nearest to
the exact result, ties going to the even significand.  The embedding makes
each of these rounding steps explicit: a value of type ℚ stands for the
exact rational denoted by a float, and `roundB64` is correct rounding to 53
significant bits (round to nearest, ties to even), which is exact IEEE-754
behaviour for results in the normal range — overflow to infinity and
subnormal underflow, far outside the magnitudes of this tuning code, are not
modelled.  `int()` truncates toward zero, and `sorted(set(...))` is
deduplication followed by an ascending sort. -/

/-- Python `int()` applied to a rational: truncation toward zero. -/
def pyint (q : ℚ) : ℤ :=
  if 0 ≤ q then ⌊q⌋ else ⌈q⌉

/-- Fuel-driven floor logarithm, upward direction: for `1 ≤ q < 2 ^ fuel`,
counts how often `q` can be halved before dropping below 2. -/
def log2Up : ℚ → ℕ → ℕ
  | _, 0 => 0
  | q, fuel+1 => if q < 2 then 0 else log2Up (q / 2) fuel + 1

/-- Fuel-driven floor logarithm, downward direction: for
`2 ^ (-fuel) ≤ q < 1`, counts how often `q` must be doubled to reach 1. -/
def log2Down : ℚ → ℕ → ℕ
  | _, 0 => 0
  | q, fuel+1 => if 1 ≤ q then 0 else log2Down (q * 2) fuel + 1

/-- The binary exponent of a positive rational: the unique `e` with
`2 ^ e ≤ q < 2 ^ (e + 1)`.  The fuel bound 1100 comfortably covers the
binary64 exponent range. -/
def floorLog2 (q : ℚ) : ℤ :=
  if 1 ≤ q then (log2Up q 1100 : ℤ) else -(log2Down q 1100 : ℤ)

/-- Round a rational to the nearest integer, ties to the even integer —
the tie-breaking rule of IEEE-754 round-to-nearest. -/
def roundHalfEven (m : ℚ) : ℤ :=
  if m - ⌊m⌋ < 1 / 2 then ⌊m⌋
  else if (1 : ℚ) / 2 < m - ⌊m⌋ then ⌊m⌋ + 1
  else if ⌊m⌋ % 2 = 0 then ⌊m⌋ else ⌊m⌋ + 1

/-- Correctly round a positive rational to 53 significant bits: scale by the
unit in the last place `2 ^ (e - 52)`, round to the nearest (ties even)
integer significand, and scale back. -/
def roundB64Pos (q : ℚ) : ℚ :=
  ((roundHalfEven (q / (2 : ℚ) ^ (floorLog2 q - 52)) : ℤ) : ℚ) *
    (2 : ℚ) ^ (floorLog2 q - 52)

/-- The exact value of the IEEE-754 binary64 nearest to `q` (round to
nearest, ties to even), for `q` in the normal range. -/
def roundB64 (q : ℚ) : ℚ :=
  if q = 0 then 0 else if q < 0 then -roundB64Pos (-q) else roundB64Pos q

/-- Insert an integer into a list so that a sorted list stays sorted. -/
def insertInt (x : ℤ) : List ℤ → List ℤ
  | [] => [x]
  | y :: ys => if x ≤ y then x :: y :: ys else y :: insertInt x ys

/-- Ascending insertion sort on integer lists — the semantics of Python's
`sorted` on integers. -/
def sortInts : List ℤ → List ℤ
  | [] => []
  | x :: xs => insertInt x (sortInts xs)

/-- Embedding of `pick_values_uniform` (TunedRandomForest/exec.py
lines 31-34) under binary64 float arithmetic: `d` is the correctly rounded
true division of the two integer arguments; the sample
`start + i * d` converts `i` and `start` to float and rounds the
multiplication and the addition; `sorted(set(...))` becomes deduplication
followed by an ascending sort of the truncated values. -/
def pick_values_uniform (start endv length : ℤ) : List ℤ :=
  let d : ℚ := roundB64 (((endv : ℚ) - (start : ℚ)) / ((length : ℚ) - 1))
  let uniform_floats : List ℚ := (List.range length.toNat).map
    (fun i : ℕ => roundB64 (roundB64 (start : ℚ) +
      roundB64 (roundB64 (i : ℚ) * d)))
  sortInts ((uniform_floats.map pyint).dedup)

/-! ## Helper lemmas -/

/-- Appending on the left is cancellable for strings. -/
theorem string_append_left_cancel {s a b : String} (h : s ++ a = s ++ b) :
    a = b := by
  have h2 : s.data ++ a.data = s.data ++ b.data := by
    have h1 := congrArg String.data h
    simpa [String.data_append] using h1
  have h3 : a.data = b.data := List.append_cancel_left h2
  cases a; cases b; exact congrArg String.mk h3

/-! ## Claims about the interrupt guard (C1) -/

/-- C1 counterexample: the claim asserts a forced stop on ANY exit path of
the guarded run, but on the normal-return exit path of
`DockerBenchmark._start_container` no `docker kill` is invoked at all — the
`except` clause is the only place that stops the container. -/
theorem C1_success_path_has_no_force_stop :
    (startContainerGuard (Except.ok ()) (Except.ok ())).kill_invocations ≠ 1 := by
  decide

/-- C1 (amended): the guard of `_start_container` issues `docker kill`
exactly once on every error exit path (including interrupts) and never on
the normal-return path, and on every exit path the original outcome is
propagated unchanged — in particular a failure of the kill command itself is
swallowed and never replaces the original outcome. -/
theorem C1_guard_stops_once_on_error_and_propagates
    (runOutcome killOutcome : Except String Unit) :
    (startContainerGuard runOutcome killOutcome).outcome = runOutcome ∧
    (startContainerGuard runOutcome killOutcome).kill_invocations =
      (match runOutcome with
       | Except.ok _ => 0
       | Except.error _ => 1) := by
  cases runOutcome <;> cases killOutcome <;> exact ⟨rfl, rfl⟩

/-! ## Claims about instance naming (C5) -/

/-- C5: the docker instance name is the session id, a literal dot, and the
sanitized digest of the forwarded script parameters; the construction is
deterministic (identical parameters give the identical name), and as long as
`sanitize ∘ digest` is collision-free (the specification's idealization of
the digest), different parameters in the same session give distinct names. -/
theorem C5_instance_name_unique (digest sanitize : String → String)
    (sid p1 p2 : String)
    (hinj : Function.Injective (fun s => sanitize (digest s))) :
    inst_name digest sanitize sid p1 = sid ++ "." ++ sanitize (digest p1) ∧
    (p1 = p2 →
      inst_name digest sanitize sid p1 = inst_name digest sanitize sid p2) ∧
    (p1 ≠ p2 →
      inst_name digest sanitize sid p1 ≠ inst_name digest sanitize sid p2) := by
  refine ⟨rfl, fun h => by rw [h], fun hne heq => hne ?_⟩
  have h1 : sid ++ "." ++ sanitize (digest p1)
      = sid ++ "." ++ sanitize (digest p2) := heq
  rw [String.append_assoc, String.append_assoc] at h1
  have h2 := string_append_left_cancel h1
  have h3 := string_append_left_cancel h2
  exact hinj h3

/-- C5 witness: the theorem applied to identity digest and sanitization,
session id "s" and parameters "a" and "b". -/
theorem C5_instance_name_unique_witness :
    inst_name id id "s" "a" = "s" ++ "." ++ id (id "a") ∧
    ("a" = "b" → inst_name id id "s" "a" = inst_name id id "s" "b") ∧
    ("a" ≠ "b" → inst_name id id "s" "a" ≠ inst_name id id "s" "b") :=
  C5_instance_name_unique id id "s" "a" "b" (fun _ _ h => h)

/-! ## Claims about the image existence check (C6) -/

/-- C6 counterexample: the claim says the check itself never raises, but
only the pull is guarded by a `try` — when the local image query
`docker images -q` itself fails (for example because the docker daemon is
unreachable), `_image_exists` propagates that error instead of returning
`false`. -/
theorem C6_query_failure_raises :
    image_exists
        { images_query := Except.error "docker daemon unreachable",
          pull := Except.ok () }
      = Except.error "docker daemon unreachable" := rfl

/-- C6 (amended): whenever the local image query completes, the check
returns normally: `true` exactly when the stripped query output is a
nonempty lowercase-hexadecimal image id or, failing that, when the registry
pull succeeds; a pull failure is caught internally and yields `false`. -/
theorem C6_image_exists_of_query_ok (output : String)
    (pull : Except String Unit) :
    image_exists { images_query := Except.ok output, pull := pull }
      = Except.ok
          (isHexId (pyStrip output) ||
            (match pull with
             | Except.ok _ => true
             | Except.error _ => false)) := by
  cases pull <;> cases h : isHexId (pyStrip output) <;>
    simp [image_exists, h]

/-! ## Concrete fixtures used by the claim witnesses -/

/-- A concrete adapter environment: estimator 7 comes out of fitting, a model
persisted under "/saved" holds estimator 9, estimator `m` predicts `[m]`. -/
def sampleEnv : AdapterEnv :=
  { trained_model := 7
    fit_duration := 2
    predict_duration := 1
    tmpdir := "/tmp/model7"
    persist_ok := true
    fs := fun p => if p = "/saved/model.pkl" then some 9 else none
    predict_of := fun m => [(m : ℚ)]
    proba_of := fun m => [(m : ℚ) / 2]
    labels_of := fun _ => [0, 1]
    models_count_of := fun m => m }

/-- The sample environment with a failing model persistence. -/
def envNoPersist : AdapterEnv := { sampleEnv with persist_ok := false }

/-- A concrete training task configuration. -/
def trainConfig : TaskConfig :=
  { task_type := "train", model_path := none, type := "classification"
    seed := 1, cores := 4, max_runtime_seconds := 600, metric := "acc" }

/-- A concrete prediction task configuration pointing at the persisted
model of `sampleEnv`. -/
def predictConfig : TaskConfig :=
  { task_type := "predict", model_path := some "/saved"
    type := "classification", seed := 1, cores := 4
    max_runtime_seconds := 600, metric := "acc" }

/-- A concrete prediction task configuration with no model path. -/
def predictConfigNoModel : TaskConfig :=
  { task_type := "predict", model_path := none, type := "classification"
    seed := 1, cores := 4, max_runtime_seconds := 600, metric := "acc" }

/-- A concrete task configuration with an unknown task type. -/
def bogusConfig : TaskConfig :=
  { task_type := "bogus", model_path := none, type := "classification"
    seed := 1, cores := 4, max_runtime_seconds := 600, metric := "acc" }

/-! ## Claims about the adapter task-type dispatch (C2) -/

/-- C2: an adapter run whose task type is neither "train" nor "predict"
raises `ValueError` immediately — the outcome is the error and the event
trace is empty, so no fit and no predict call ever happens, in each of the
three embedded adapters. -/
theorem C2_unknown_task_type_fails_fast (env : AdapterEnv)
    (config : TaskConfig) (h1 : config.task_type ≠ "train")
    (h2 : config.task_type ≠ "predict") :
    rf_run env config =
      { result := Except.error (AdapterError.valueError
          ("Unknown task_type: " ++ config.task_type))
        events := [] } ∧
    cp_run env config =
      { result := Except.error (AdapterError.valueError
          ("Unknown task_type: " ++ config.task_type))
        events := [] } ∧
    flaml_run env config =
      { result := Except.error (AdapterError.valueError
          ("Unknown task_type: " ++ config.task_type))
        events := [] } := by
  refine ⟨?_, ?_, ?_⟩ <;> simp [rf_run, cp_run, flaml_run, h1, h2]

/-- C2 witness: the theorem applied to the sample environment and the
task type "bogus". -/
theorem C2_unknown_task_type_fails_fast_witness :
    bogusConfig.task_type ≠ "train" ∧ bogusConfig.task_type ≠ "predict" ∧
    (rf_run sampleEnv bogusConfig =
      { result := Except.error (AdapterError.valueError
          ("Unknown task_type: " ++ bogusConfig.task_type))
        events := [] } ∧
    cp_run sampleEnv bogusConfig =
      { result := Except.error (AdapterError.valueError
          ("Unknown task_type: " ++ bogusConfig.task_type))
        events := [] } ∧
    flaml_run sampleEnv bogusConfig =
      { result := Except.error (AdapterError.valueError
          ("Unknown task_type: " ++ bogusConfig.task_type))
        events := [] }) :=
  ⟨by decide, by decide,
   C2_unknown_task_type_fails_fast sampleEnv bogusConfig (by decide) (by decide)⟩

/-! ## Claims about best-effort model persistence (C3) -/

/-- C3: when a training run fails to persist the fitted model, the failure
is swallowed: the run still returns normally, its result reports
`model_path = none` instead of a path, and the predictions of the fitted
model are still emitted (in the result record for the RandomForest adapter,
through `save_predictions` for the constantpredictor adapter); whenever the
fitted model predicts anything at all, the reported predictions are
nonempty. -/
theorem C3_persist_failure_degrades_to_none (env : AdapterEnv)
    (config : TaskConfig) (htrain : config.task_type = "train")
    (hfail : env.persist_ok = false) :
    rf_run env config =
      { result := Except.ok
          { predictions := env.predict_of env.trained_model
            probabilities :=
              if config.type = "classification"
              then some (env.proba_of env.trained_model) else none
            models_count := env.models_count_of env.trained_model
            training_duration := env.fit_duration
            predict_duration := env.predict_duration
            model_path := none }
        events := [Event.fit, Event.persistAttempt, Event.predictCall] } ∧
    cp_run env config =
      { result := Except.ok
          { models_count := 1
            training_duration := env.fit_duration
            predict_duration := env.predict_duration
            model_path := none }
        events := [Event.fit, Event.persistAttempt, Event.predictCall,
                   Event.savePreds (env.predict_of env.trained_model)] } ∧
    (env.predict_of env.trained_model ≠ [] →
      ∃ r, (rf_run env config).result = Except.ok r ∧
        r.predictions ≠ [] ∧ r.model_path = none) := by
  have h1 : rf_run env config =
      { result := Except.ok
          { predictions := env.predict_of env.trained_model
            probabilities :=
              if config.type = "classification"
              then some (env.proba_of env.trained_model) else none
            models_count := env.models_count_of env.trained_model
            training_duration := env.fit_duration
            predict_duration := env.predict_duration
            model_path := none }
        events := [Event.fit, Event.persistAttempt, Event.predictCall] } := by
    simp [rf_run, htrain, hfail]
  refine ⟨h1, by simp [cp_run, htrain, hfail], fun hne => ?_⟩
  exact ⟨{ predictions := env.predict_of env.trained_model
           probabilities :=
             if config.type = "classification"
             then some (env.proba_of env.trained_model) else none
           models_count := env.models_count_of env.trained_model
           training_duration := env.fit_duration
           predict_duration := env.predict_duration
           model_path := none },
         by rw [h1], hne, rfl⟩

/-- C3 witness: the theorem applied to the sample environment with failing
persistence and a concrete training configuration. -/
theorem C3_persist_failure_degrades_to_none_witness :
    trainConfig.task_type = "train" ∧ envNoPersist.persist_ok = false ∧
    (rf_run envNoPersist trainConfig =
      { result := Except.ok
          { predictions := envNoPersist.predict_of envNoPersist.trained_model
            probabilities :=
              if trainConfig.type = "classification"
              then some (envNoPersist.proba_of envNoPersist.trained_model)
              else none
            models_count :=
              envNoPersist.models_count_of envNoPersist.trained_model
            training_duration := envNoPersist.fit_duration
            predict_duration := envNoPersist.predict_duration
            model_path := none }
        events := [Event.fit, Event.persistAttempt, Event.predictCall] } ∧
    cp_run envNoPersist trainConfig =
      { result := Except.ok
          { models_count := 1
            training_duration := envNoPersist.fit_duration
            predict_duration := envNoPersist.predict_duration
            model_path := none }
        events := [Event.fit, Event.persistAttempt, Event.predictCall,
                   Event.savePreds
                     (envNoPersist.predict_of envNoPersist.trained_model)] } ∧
    (envNoPersist.predict_of envNoPersist.trained_model ≠ [] →
      ∃ r, (rf_run envNoPersist trainConfig).result = Except.ok r ∧
        r.predictions ≠ [] ∧ r.model_path = none)) :=
  ⟨rfl, rfl,
   C3_persist_failure_degrades_to_none envNoPersist trainConfig rfl rfl⟩

/-! ## Claims about the predict branch with a persisted model (C4) -/

/-- C4: a predict-mode run with an existing persisted model loads that model,
never fits, reports a training duration of exactly 0 and a `model_path` of
`None`, in both the RandomForest and the flaml adapters. -/
theorem C4_predict_loads_without_training (env : AdapterEnv)
    (config : TaskConfig) (p : String) (m : ℕ)
    (hp : config.task_type = "predict") (hmp : config.model_path = some p)
    (hfs : env.fs (p ++ "/model.pkl") = some m) :
    rf_run env config =
      { result := Except.ok
          { predictions := env.predict_of m
            probabilities :=
              if config.type = "classification"
              then some (env.proba_of m) else none
            models_count := env.models_count_of m
            training_duration := 0
            predict_duration := env.predict_duration
            model_path := none }
        events := [Event.loadAttempt, Event.predictCall] } ∧
    flaml_run env config =
      { result := Except.ok
          { predictions := env.predict_of m
            probabilities :=
              if config.type = "classification"
              then some (env.proba_of m) else none
            probabilities_labels :=
              if config.type = "classification"
              then some (env.labels_of m) else none
            models_count := env.models_count_of m
            training_duration := 0
            predict_duration := env.predict_duration
            model_path := none }
        events := [Event.loadAttempt, Event.predictCall] } ∧
    Event.fit ∉ (rf_run env config).events ∧
    Event.fit ∉ (flaml_run env config).events := by
  have hnt : config.task_type ≠ "train" := by
    rw [hp]; decide
  refine ⟨?_, ?_, ?_, ?_⟩ <;>
    simp [rf_run, flaml_run, hnt, hp, hmp, hfs]

/-- C4 witness: the theorem applied to the sample environment, whose store
holds model 9 under "/saved", and the concrete predict configuration. -/
theorem C4_predict_loads_without_training_witness :
    predictConfig.task_type = "predict" ∧
    predictConfig.model_path = some "/saved" ∧
    sampleEnv.fs ("/saved" ++ "/model.pkl") = some 9 ∧
    (rf_run sampleEnv predictConfig =
      { result := Except.ok
          { predictions := sampleEnv.predict_of 9
            probabilities :=
              if predictConfig.type = "classification"
              then some (sampleEnv.proba_of 9) else none
            models_count := sampleEnv.models_count_of 9
            training_duration := 0
            predict_duration := sampleEnv.predict_duration
            model_path := none }
        events := [Event.loadAttempt, Event.predictCall] } ∧
    flaml_run sampleEnv predictConfig =
      { result := Except.ok
          { predictions := sampleEnv.predict_of 9
            probabilities :=
              if predictConfig.type = "classification"
              then some (sampleEnv.proba_of 9) else none
            probabilities_labels :=
              if predictConfig.type = "classification"
              then some (sampleEnv.labels_of 9) else none
            models_count := sampleEnv.models_count_of 9
            training_duration := 0
            predict_duration := sampleEnv.predict_duration
            model_path := none }
        events := [Event.loadAttempt, Event.predictCall] } ∧
    Event.fit ∉ (rf_run sampleEnv predictConfig).events ∧
    Event.fit ∉ (flaml_run sampleEnv predictConfig).events) :=
  ⟨rfl, rfl, by simp [sampleEnv],
   C4_predict_loads_without_training sampleEnv predictConfig "/saved" 9
     rfl rfl (by simp [sampleEnv])⟩

/-! ## Claims about the predict branch with a missing model (C9) -/

/-- C9: a predict-mode run whose model path is missing (either `None`, or a
path under which no model file is persisted) raises while attempting the
model load — the outcome is an error, the only event is the load attempt,
and in particular no fit ever happens — in both the RandomForest and the
constantpredictor adapters. -/
theorem C9_predict_missing_model_fails_fast (env : AdapterEnv)
    (config : TaskConfig) (hp : config.task_type = "predict")
    (hmiss : ∀ q, config.model_path = some q →
      env.fs (q ++ "/model.pkl") = none) :
    (∃ e, (rf_run env config).result = Except.error e) ∧
    (rf_run env config).events = [Event.loadAttempt] ∧
    (∃ e, (cp_run env config).result = Except.error e) ∧
    (cp_run env config).events = [Event.loadAttempt] := by
  have hnt : config.task_type ≠ "train" := by
    rw [hp]; decide
  cases hmp : config.model_path with
  | none => refine ⟨?_, ?_, ?_, ?_⟩ <;> simp [rf_run, cp_run, hnt, hp, hmp]
  | some q =>
    have hq := hmiss q hmp
    refine ⟨?_, ?_, ?_, ?_⟩ <;> simp [rf_run, cp_run, hnt, hp, hmp, hq]

/-- C9 witness: the theorem applied to the sample environment and the
predict configuration with no model path at all. -/
theorem C9_predict_missing_model_fails_fast_witness :
    predictConfigNoModel.task_type = "predict" ∧
    (∀ q, predictConfigNoModel.model_path = some q →
      sampleEnv.fs (q ++ "/model.pkl") = none) ∧
    ((∃ e, (rf_run sampleEnv predictConfigNoModel).result = Except.error e) ∧
    (rf_run sampleEnv predictConfigNoModel).events = [Event.loadAttempt] ∧
    (∃ e, (cp_run sampleEnv predictConfigNoModel).result = Except.error e) ∧
    (cp_run sampleEnv predictConfigNoModel).events = [Event.loadAttempt]) :=
  ⟨rfl, fun _ h => Option.noConfusion h,
   C9_predict_missing_model_fails_fast sampleEnv predictConfigNoModel rfl
     (fun _ h => Option.noConfusion h)⟩

/-! ## Claims about the build command's cache flag (C7) -/

/-- If a space-free pattern is a prefix of `a ++ ' ' :: b`, it is already a
prefix of `a`. -/
theorem prefix_drops_at_space {p a b : List Char} (hp : ' ' ∉ p)
    (h : p <+: a ++ ' ' :: b) : p <+: a := by
  induction a generalizing p with
  | nil =>
    cases p with
    | nil => exact List.nil_prefix
    | cons x xs =>
      rcases h with ⟨t, ht⟩
      rw [List.cons_append] at ht
      injection ht with h1 _
      exact absurd (h1 ▸ List.mem_cons_self x xs) hp
  | cons y ys ih =>
    cases p with
    | nil => exact List.nil_prefix
    | cons x xs =>
      rcases h with ⟨t, ht⟩
      rw [List.cons_append, List.cons_append] at ht
      injection ht with h1 h2
      subst h1
      have hxs : ' ' ∉ xs := fun hm => hp (List.mem_cons_of_mem _ hm)
      rcases ih hxs ⟨t, h2⟩ with ⟨t', ht'⟩
      exact ⟨t', by rw [List.cons_append, ht']⟩

/-- A nonempty space-free pattern occurring inside `a ++ ' ' :: b` occurs
entirely inside `a` or entirely inside `b`: it cannot straddle the space. -/
theorem infix_splits_at_space {p a b : List Char} (hp : ' ' ∉ p)
    (hne : p ≠ []) (h : p <:+: a ++ ' ' :: b) : p <:+: a ∨ p <:+: b := by
  induction a with
  | nil =>
    rw [List.nil_append] at h
    rcases List.infix_cons_iff.mp h with h1 | h1
    · cases p with
      | nil => exact absurd rfl hne
      | cons x xs =>
        rcases h1 with ⟨t, ht⟩
        rw [List.cons_append] at ht
        injection ht with h1 _
        exact absurd (h1 ▸ List.mem_cons_self x xs) hp
    · exact Or.inr h1
  | cons y ys ih =>
    rw [List.cons_append] at h
    rcases List.infix_cons_iff.mp h with h1 | h1
    · have h2 : p <+: (y :: ys) ++ ' ' :: b := by
        rw [List.cons_append]; exact h1
      exact Or.inl (prefix_drops_at_space hp h2).isInfix
    · rcases ih h1 with h2 | h2
      · exact Or.inl (List.infix_cons h2)
      · exact Or.inr h2

/-- C7: provided neither the image name nor the script path themselves
contain the characters "--no-cache", the build command issued by
`_run_container_build_command` contains the "--no-cache" option exactly when
caching is disabled, and in both cases it ends with the options targeting
the image name (`-t`) and the generated build-script path (`-f`). -/
theorem C7_build_command_cache_flag (image script : String)
    (him : ¬ ("--no-cache".data <:+: image.data))
    (hsc : ¬ ("--no-cache".data <:+: script.data)) :
    ("--no-cache".data <:+: (docker_build_cmd image script false).data) ∧
    ¬ ("--no-cache".data <:+: (docker_build_cmd image script true).data) ∧
    (∀ cache : Bool, (" -t " ++ image ++ " -f " ++ script ++ " .").data <:+
      (docker_build_cmd image script cache).data) := by
  refine ⟨?_, ?_, ?_⟩
  · exact ⟨"docker build ".data,
      (" -t " ++ image ++ " -f " ++ script ++ " .").data,
      by simp [docker_build_cmd, String.data_append]⟩
  · have hd : (docker_build_cmd image script true).data =
        "docker".data ++ ' ' :: ("build".data ++ ' ' ::
          (' ' :: ("-t".data ++ ' ' :: (image.data ++ ' ' ::
            ("-f".data ++ ' ' :: (script.data ++ ' ' :: ['.'])))))) := by
      simp [docker_build_cmd, String.data_append]
    intro hin
    rw [hd] at hin
    have hp : ' ' ∉ "--no-cache".data := by decide
    have hne : "--no-cache".data ≠ [] := by decide
    rcases infix_splits_at_space hp hne hin with h | h
    · exact absurd h (by decide)
    rcases infix_splits_at_space hp hne h with h | h
    · exact absurd h (by decide)
    rcases List.infix_cons_iff.mp h with h | h
    · rcases h with ⟨t, ht⟩
      rw [show "--no-cache".data = '-' :: "-no-cache".data from rfl,
          List.cons_append] at ht
      injection ht with h1 _
      exact absurd h1 (by decide)
    rcases infix_splits_at_space hp hne h with h | h
    · exact absurd h (by decide)
    rcases infix_splits_at_space hp hne h with h | h
    · exact him h
    rcases infix_splits_at_space hp hne h with h | h
    · exact absurd h (by decide)
    rcases infix_splits_at_space hp hne h with h | h
    · exact hsc h
    · exact absurd h (by decide)
  · intro cache
    cases cache
    · exact ⟨"docker build --no-cache".data,
        by simp [docker_build_cmd, String.data_append]⟩
    · exact ⟨"docker build ".data,
        by simp [docker_build_cmd, String.data_append]⟩

/-- C7 witness: the theorem applied to a concrete image name and script
path. -/
theorem C7_build_command_cache_flag_witness :
    ¬ ("--no-cache".data <:+: "automlbenchmark/rf".data) ∧
    ¬ ("--no-cache".data <:+: "Dockerfile".data) ∧
    (("--no-cache".data <:+:
        (docker_build_cmd "automlbenchmark/rf" "Dockerfile" false).data) ∧
    ¬ ("--no-cache".data <:+:
        (docker_build_cmd "automlbenchmark/rf" "Dockerfile" true).data) ∧
    (∀ cache : Bool,
      (" -t " ++ "automlbenchmark/rf" ++ " -f " ++ "Dockerfile" ++ " .").data
        <:+ (docker_build_cmd "automlbenchmark/rf" "Dockerfile" cache).data)) :=
  ⟨by decide, by decide,
   C7_build_command_cache_flag "automlbenchmark/rf" "Dockerfile"
     (by decide) (by decide)⟩

/-! ## Claims about mount directory creation (C8) -/

/-- Creating a directory makes it present. -/
theorem mem_applyEffect_mkdirp (fs : List String) (d : String) :
    d ∈ applyEffect fs (Effect.mkdirp d) := by
  by_cases h : d ∈ fs <;> simp [applyEffect, h]

/-- Effects never remove directories. -/
theorem mem_applyEffect_of_mem {fs : List String} {x : String} (e : Effect)
    (h : x ∈ fs) : x ∈ applyEffect fs e := by
  cases e with
  | mkdirp d => by_cases hd : d ∈ fs <;> simp [applyEffect, hd, h]
  | cmd c => exact h

/-- A concrete configuration whose session output directory differs from the
configured output directory. -/
def cexStartConfig : StartContainerConfig :=
  { input_dir := "/in", output_dir := "/out", user_dir := "/cust"
    session_dir := "/out/session", run_extra_options := ""
    image := "img", sid := "sid" }

set_option maxRecDepth 100000 in
/-- C8 counterexample: the claim says the issued run command names the three
created mount directories as volume bindings, but the output volume binding
of the docker run command is `self.output_dirs.session`, not the
`output_dir` that `_start_container` creates: at a concrete configuration
the created output directory is not a binding source, the command does not
contain the binding "/out:/output", and it does contain
"/out/session:/output". -/
theorem C8_output_dir_is_not_the_output_binding :
    cexStartConfig.output_dir ∉ (volume_bindings cexStartConfig).map Prod.fst ∧
    ¬ ("-v /out:/output".data <:+:
        (docker_run_command id id cexStartConfig "-s only").data) ∧
    ("/out/session:/output".data <:+:
        (docker_run_command id id cexStartConfig "-s only").data) := by
  refine ⟨by decide, by decide, by decide⟩

/-- C8 (amended): before the docker run command is issued,
`_start_container` creates (if absent) the three configured mount
directories — input, output and custom — in that order; the effect trace
consists of exactly those three creations followed by the single run
command, every one of the three directories exists by the time the command
is issued, and the command's volume bindings name the input directory, the
session output directory (not the configured output directory itself), and
the custom directory. -/
theorem C8_mount_dirs_exist_before_run (digest sanitize : String → String)
    (cfg : StartContainerConfig) (script_params : String)
    (fs0 : List String) :
    start_container_effects digest sanitize cfg script_params =
      [Effect.mkdirp cfg.input_dir, Effect.mkdirp cfg.output_dir,
       Effect.mkdirp cfg.user_dir,
       Effect.cmd (docker_run_command digest sanitize cfg script_params)] ∧
    cfg.input_dir ∈
      fsAtFirstCmd fs0 (start_container_effects digest sanitize cfg script_params) ∧
    cfg.output_dir ∈
      fsAtFirstCmd fs0 (start_container_effects digest sanitize cfg script_params) ∧
    cfg.user_dir ∈
      fsAtFirstCmd fs0 (start_container_effects digest sanitize cfg script_params) ∧
    volume_bindings cfg =
      [(cfg.input_dir, "/input"), (cfg.session_dir, "/output"),
       (cfg.user_dir, "/custom")] := by
  have hfs : fsAtFirstCmd fs0
      (start_container_effects digest sanitize cfg script_params) =
      applyEffect (applyEffect (applyEffect fs0 (Effect.mkdirp cfg.input_dir))
        (Effect.mkdirp cfg.output_dir)) (Effect.mkdirp cfg.user_dir) := by
    simp [fsAtFirstCmd, start_container_effects]
  refine ⟨rfl, ?_, ?_, ?_, rfl⟩
  · rw [hfs]
    exact mem_applyEffect_of_mem _ (mem_applyEffect_of_mem _
      (mem_applyEffect_mkdirp fs0 cfg.input_dir))
  · rw [hfs]
    exact mem_applyEffect_of_mem _
      (mem_applyEffect_mkdirp _ cfg.output_dir)
  · rw [hfs]
    exact mem_applyEffect_mkdirp _ cfg.user_dir

/-! ## Claims about `pick_values_uniform` (C10)

Correctness facts about the binary64 rounding model, used to evaluate the
embedded float arithmetic at concrete inputs. -/

/-- Correctness of the upward floor logarithm: under its fuel bound it finds
the binary exponent of a rational at least 1. -/
theorem log2Up_spec : ∀ (fuel : ℕ) (q : ℚ), 1 ≤ q → q < (2 : ℚ) ^ fuel →
    (2 : ℚ) ^ log2Up q fuel ≤ q ∧ q < (2 : ℚ) ^ (log2Up q fuel + 1) := by
  intro fuel
  induction fuel with
  | zero =>
    intro q h1 h2
    rw [pow_zero] at h2
    linarith
  | succ n ih =>
    intro q h1 h2
    by_cases hq : q < 2
    · rw [log2Up, if_pos hq]
      constructor
      · rw [pow_zero]; exact h1
      · rw [pow_one]; exact hq
    · rw [log2Up, if_neg hq]
      push_neg at hq
      have h1' : (1 : ℚ) ≤ q / 2 := by
        rw [le_div_iff₀ (by norm_num)]; linarith
      have h2' : q / 2 < 2 ^ n := by
        rw [div_lt_iff₀ (by norm_num)]
        rw [pow_succ] at h2
        exact h2
      obtain ⟨ha, hb⟩ := ih (q / 2) h1' h2'
      constructor
      · rw [pow_succ]
        rw [le_div_iff₀ (by norm_num)] at ha
        exact ha
      · rw [pow_succ]
        rw [div_lt_iff₀ (by norm_num)] at hb
        exact hb

/-- Correctness of the downward floor logarithm: under its fuel bound it
finds the binary exponent of a rational below 2. -/
theorem log2Down_spec : ∀ (fuel : ℕ) (q : ℚ), 0 < q → q < 2 →
    (1 : ℚ) / 2 ^ fuel ≤ q →
    (1 : ℚ) / 2 ^ log2Down q fuel ≤ q ∧ q < 2 / 2 ^ log2Down q fuel := by
  intro fuel
  induction fuel with
  | zero =>
    intro q h0 h2 hlo
    rw [pow_zero] at hlo
    rw [log2Down, pow_zero]
    constructor
    · simpa using hlo
    · simpa using h2
  | succ n ih =>
    intro q h0 h2 hlo
    by_cases hq : 1 ≤ q
    · rw [log2Down, if_pos hq, pow_zero]
      constructor
      · simpa using hq
      · simpa using h2
    · rw [log2Down, if_neg hq]
      push_neg at hq
      have h0' : (0 : ℚ) < q * 2 := by linarith
      have h2' : q * 2 < 2 := by linarith
      have hlo' : (1 : ℚ) / 2 ^ n ≤ q * 2 := by
        rw [pow_succ] at hlo
        rw [div_le_iff₀ (by norm_num)] at hlo ⊢
        calc (1 : ℚ) = 1 := rfl
        _ ≤ q * (2 ^ n * 2) := hlo
        _ = q * 2 * 2 ^ n := by ring
      obtain ⟨ha, hb⟩ := ih (q * 2) h0' h2' hlo'
      constructor
      · rw [pow_succ, div_le_iff₀ (by positivity)]
        rw [div_le_iff₀ (by positivity)] at ha
        calc (1 : ℚ) ≤ q * 2 * 2 ^ log2Down (q * 2) n := ha
        _ = q * (2 ^ log2Down (q * 2) n * 2) := by ring
      · rw [pow_succ, lt_div_iff₀ (by positivity)]
        rw [lt_div_iff₀ (by positivity)] at hb
        calc q * (2 ^ log2Down (q * 2) n * 2)
            = q * 2 * 2 ^ log2Down (q * 2) n := by ring
        _ < 2 := hb

/-- A rational lies between consecutive powers of two for a unique
exponent. -/
theorem zpow_interval_unique {e f : ℤ} {q : ℚ} (h1 : (2 : ℚ) ^ e ≤ q)
    (h2 : q < (2 : ℚ) ^ (e + 1)) (h3 : (2 : ℚ) ^ f ≤ q)
    (h4 : q < (2 : ℚ) ^ (f + 1)) : e = f := by
  by_contra h
  rcases lt_or_gt_of_ne h with hlt | hlt
  · have hle : (2 : ℚ) ^ (e + 1) ≤ 2 ^ f :=
      zpow_le_zpow_right₀ (by norm_num) (by omega)
    linarith
  · have hle : (2 : ℚ) ^ (f + 1) ≤ 2 ^ e :=
      zpow_le_zpow_right₀ (by norm_num) (by omega)
    linarith

/-- `floorLog2` returns the exponent `e` whenever `2 ^ e ≤ q < 2 ^ (e + 1)`
(for exponents within the fuel bound). -/
theorem floorLog2_eq (q : ℚ) (e : ℤ) (h0 : 0 < q) (hlo : (2 : ℚ) ^ e ≤ q)
    (hhi : q < (2 : ℚ) ^ (e + 1)) (helo : -1100 < e) (hehi : e < 1100) :
    floorLog2 q = e := by
  by_cases h1 : 1 ≤ q
  · rw [floorLog2, if_pos h1]
    have hfuel : q < (2 : ℚ) ^ (1100 : ℕ) := by
      have hle : (2 : ℚ) ^ (e + 1) ≤ (2 : ℚ) ^ ((1100 : ℕ) : ℤ) :=
        zpow_le_zpow_right₀ (by norm_num) (by omega)
      rw [zpow_natCast] at hle
      linarith
    obtain ⟨ha, hb⟩ := log2Up_spec 1100 q h1 hfuel
    have ha' : (2 : ℚ) ^ ((log2Up q 1100 : ℕ) : ℤ) ≤ q := by
      rw [zpow_natCast]; exact ha
    have hb' : q < (2 : ℚ) ^ (((log2Up q 1100 : ℕ) : ℤ) + 1) := by
      rw [show ((log2Up q 1100 : ℕ) : ℤ) + 1 = ((log2Up q 1100 + 1 : ℕ) : ℤ) by
        push_cast; ring, zpow_natCast]
      exact hb
    exact (zpow_interval_unique ha' hb' hlo hhi).symm ▸ rfl
  · push_neg at h1
    rw [floorLog2, if_neg (not_le.mpr h1)]
    have hlo' : (1 : ℚ) / 2 ^ (1100 : ℕ) ≤ q := by
      have hle : (2 : ℚ) ^ (-(1100 : ℤ)) ≤ 2 ^ e :=
        zpow_le_zpow_right₀ (by norm_num) (by omega)
      have heq : (2 : ℚ) ^ (-(1100 : ℤ)) = 1 / 2 ^ (1100 : ℕ) := by
        rw [zpow_neg, one_div]
        norm_num
      rw [heq] at hle
      linarith
    obtain ⟨ha, hb⟩ := log2Down_spec 1100 q h0 (by linarith) hlo'
    have ha' : (2 : ℚ) ^ (-(log2Down q 1100 : ℤ)) ≤ q := by
      rw [zpow_neg, ← one_div, zpow_natCast]
      exact ha
    have hb' : q < (2 : ℚ) ^ (-(log2Down q 1100 : ℤ) + 1) := by
      have heq : (2 : ℚ) ^ (-(log2Down q 1100 : ℤ) + 1)
          = 2 / 2 ^ (log2Down q 1100 : ℕ) := by
        rw [zpow_add₀ (by norm_num : (2 : ℚ) ≠ 0), zpow_neg, zpow_natCast,
          zpow_one]
        field_simp
      rw [heq]
      exact hb
    exact (zpow_interval_unique ha' hb' hlo hhi).symm ▸ rfl

/-- Evaluation rule for `roundB64` at a positive rational with known
exponent: scale by the unit in the last place, round half-even, scale
back. -/
theorem roundB64_eq_of (q : ℚ) (e : ℤ) (h0 : 0 < q) (hlo : (2 : ℚ) ^ e ≤ q)
    (hhi : q < (2 : ℚ) ^ (e + 1)) (helo : -1100 < e) (hehi : e < 1100) :
    roundB64 q = ((roundHalfEven (q / (2 : ℚ) ^ (e - 52)) : ℤ) : ℚ) *
      (2 : ℚ) ^ (e - 52) := by
  rw [roundB64, if_neg (ne_of_gt h0), if_neg (not_lt.mpr h0.le), roundB64Pos,
    floorLog2_eq q e h0 hlo hhi helo hehi]

/-- Inserting into a list permutes consing onto it. -/
theorem insertInt_perm (x : ℤ) (l : List ℤ) :
    List.Perm (insertInt x l) (x :: l) := by
  induction l with
  | nil => exact List.Perm.refl _
  | cons y ys ih =>
    by_cases h : x ≤ y
    · rw [insertInt, if_pos h]
    · rw [insertInt, if_neg h]
      exact (ih.cons y).trans (List.Perm.swap x y ys)

/-- Membership after insertion. -/
theorem mem_insertInt {a x : ℤ} {l : List ℤ} :
    a ∈ insertInt x l ↔ a = x ∨ a ∈ l := by
  rw [(insertInt_perm x l).mem_iff, List.mem_cons]

/-- Insertion preserves weak sortedness. -/
theorem insertInt_sorted {x : ℤ} {l : List ℤ} (h : l.Sorted (· ≤ ·)) :
    (insertInt x l).Sorted (· ≤ ·) := by
  induction l with
  | nil => simp [insertInt]
  | cons y ys ih =>
    rcases List.sorted_cons.mp h with ⟨hy, hys⟩
    by_cases hxy : x ≤ y
    · rw [insertInt, if_pos hxy]
      exact List.sorted_cons.mpr ⟨by
        intro b hb
        rcases List.mem_cons.mp hb with rfl | hb
        · exact hxy
        · exact le_trans hxy (hy b hb), h⟩
    · rw [insertInt, if_neg hxy]
      push_neg at hxy
      refine List.sorted_cons.mpr ⟨?_, ih hys⟩
      intro b hb
      rcases mem_insertInt.mp hb with rfl | hb
      · exact hxy.le
      · exact hy b hb

/-- The insertion sort permutes its input. -/
theorem sortInts_perm (l : List ℤ) : List.Perm (sortInts l) l := by
  induction l with
  | nil => exact List.Perm.refl _
  | cons x xs ih => exact (insertInt_perm x (sortInts xs)).trans (ih.cons x)

/-- The insertion sort sorts. -/
theorem sortInts_sorted (l : List ℤ) : (sortInts l).Sorted (· ≤ ·) := by
  induction l with
  | nil => simp [sortInts]
  | cons x xs ih => exact insertInt_sorted ih

set_option maxHeartbeats 4000000 in
/-- C10 counterexample: under the program's binary64 float arithmetic the
claimed endpoint properties fail.  At `(start, end, length) = (1, 62, 8)` the
spacing `61/7` rounds to a binary64 slightly below the true value, the last
sample `1 + 7 * d` evaluates to `61.99999999999999`, and `int()` truncates it
to 61 — the returned list is `[1, 9, 18, 27, 35, 44, 53, 61]`, whose last
element is not `end = 62`.  At `(2^53 + 1, 2^53 + 2, 2)` the odd `start`
exceeds 53 bits, both samples round (ties to even) to `2^53`, and the result
is the singleton `[2^53]`: its first element is not `start`, and it lies
below `start`, outside `[start, end]`. -/
theorem C10_float_rounding_misses_endpoints :
    pick_values_uniform 1 62 8 = [1, 9, 18, 27, 35, 44, 53, 61] ∧
    (pick_values_uniform 1 62 8).getLast? ≠ some 62 ∧
    pick_values_uniform 9007199254740993 9007199254740994 2
      = [9007199254740992] ∧
    (pick_values_uniform 9007199254740993 9007199254740994 2).head?
      ≠ some 9007199254740993 ∧
    ¬ (∀ x ∈ pick_values_uniform 9007199254740993 9007199254740994 2,
        9007199254740993 ≤ x ∧ x ≤ 9007199254740994) := by
  have hz : roundB64 (0 : ℚ) = 0 := by rw [roundB64, if_pos rfl]
  have hA0 : roundB64 (61 / 7 : ℚ) = 4905706736957147 / 562949953421312 := by
    rw [roundB64_eq_of (61 / 7 : ℚ) 3 (by norm_num) (by norm_num)
      (by norm_num) (by norm_num) (by norm_num)]
    norm_num [roundHalfEven]
  have hA1 : roundB64 (1 : ℚ) = 1 := by
    rw [roundB64_eq_of (1 : ℚ) 0 (by norm_num) (by norm_num)
      (by norm_num) (by norm_num) (by norm_num)]
    norm_num [roundHalfEven]
  have hA2 : roundB64 (4905706736957147 / 562949953421312 : ℚ)
      = 4905706736957147 / 562949953421312 := by
    rw [roundB64_eq_of (4905706736957147 / 562949953421312 : ℚ) 3
      (by norm_num) (by norm_num) (by norm_num) (by norm_num) (by norm_num)]
    norm_num [roundHalfEven]
  have hA3 : roundB64 (5468656690378459 / 562949953421312 : ℚ)
      = 5468656690378459 / 562949953421312 := by
    rw [roundB64_eq_of (5468656690378459 / 562949953421312 : ℚ) 3
      (by norm_num) (by norm_num) (by norm_num) (by norm_num) (by norm_num)]
    norm_num [roundHalfEven]
  have hA4 : roundB64 (2 : ℚ) = 2 := by
    rw [roundB64_eq_of (2 : ℚ) 1 (by norm_num) (by norm_num)
      (by norm_num) (by norm_num) (by norm_num)]
    norm_num [roundHalfEven]
  have hA5 : roundB64 (4905706736957147 / 281474976710656 : ℚ)
      = 4905706736957147 / 281474976710656 := by
    rw [roundB64_eq_of (4905706736957147 / 281474976710656 : ℚ) 4
      (by norm_num) (by norm_num) (by norm_num) (by norm_num) (by norm_num)]
    norm_num [roundHalfEven]
  have hA6 : roundB64 (5187181713667803 / 281474976710656 : ℚ)
      = 5187181713667803 / 281474976710656 := by
    rw [roundB64_eq_of (5187181713667803 / 281474976710656 : ℚ) 4
      (by norm_num) (by norm_num) (by norm_num) (by norm_num) (by norm_num)]
    norm_num [roundHalfEven]
  have hA7 : roundB64 (3 : ℚ) = 3 := by
    rw [roundB64_eq_of (3 : ℚ) 1 (by norm_num) (by norm_num)
      (by norm_num) (by norm_num) (by norm_num)]
    norm_num [roundHalfEven]
  have hA8 : roundB64 (14717120210871441 / 562949953421312 : ℚ)
      = 919820013179465 / 35184372088832 := by
    rw [roundB64_eq_of (14717120210871441 / 562949953421312 : ℚ) 4
      (by norm_num) (by norm_num) (by norm_num) (by norm_num) (by norm_num)]
    norm_num [roundHalfEven]
  have hA9 : roundB64 (955004385268297 / 35184372088832 : ℚ)
      = 955004385268297 / 35184372088832 := by
    rw [roundB64_eq_of (955004385268297 / 35184372088832 : ℚ) 4
      (by norm_num) (by norm_num) (by norm_num) (by norm_num) (by norm_num)]
    norm_num [roundHalfEven]
  have hA10 : roundB64 (4 : ℚ) = 4 := by
    rw [roundB64_eq_of (4 : ℚ) 2 (by norm_num) (by norm_num)
      (by norm_num) (by norm_num) (by norm_num)]
    norm_num [roundHalfEven]
  have hA11 : roundB64 (4905706736957147 / 140737488355328 : ℚ)
      = 4905706736957147 / 140737488355328 := by
    rw [roundB64_eq_of (4905706736957147 / 140737488355328 : ℚ) 5
      (by norm_num) (by norm_num) (by norm_num) (by norm_num) (by norm_num)]
    norm_num [roundHalfEven]
  have hA12 : roundB64 (5046444225312475 / 140737488355328 : ℚ)
      = 5046444225312475 / 140737488355328 := by
    rw [roundB64_eq_of (5046444225312475 / 140737488355328 : ℚ) 5
      (by norm_num) (by norm_num) (by norm_num) (by norm_num) (by norm_num)]
    norm_num [roundHalfEven]
  have hA13 : roundB64 (5 : ℚ) = 5 := by
    rw [roundB64_eq_of (5 : ℚ) 2 (by norm_num) (by norm_num)
      (by norm_num) (by norm_num) (by norm_num)]
    norm_num [roundHalfEven]
  have hA14 : roundB64 (24528533684785735 / 562949953421312 : ℚ)
      = 3066066710598217 / 70368744177664 := by
    rw [roundB64_eq_of (24528533684785735 / 562949953421312 : ℚ) 5
      (by norm_num) (by norm_num) (by norm_num) (by norm_num) (by norm_num)]
    norm_num [roundHalfEven]
  have hA15 : roundB64 (3136435454775881 / 70368744177664 : ℚ)
      = 3136435454775881 / 70368744177664 := by
    rw [roundB64_eq_of (3136435454775881 / 70368744177664 : ℚ) 5
      (by norm_num) (by norm_num) (by norm_num) (by norm_num) (by norm_num)]
    norm_num [roundHalfEven]
  have hA16 : roundB64 (6 : ℚ) = 6 := by
    rw [roundB64_eq_of (6 : ℚ) 2 (by norm_num) (by norm_num)
      (by norm_num) (by norm_num) (by norm_num)]
    norm_num [roundHalfEven]
  have hA17 : roundB64 (14717120210871441 / 281474976710656 : ℚ)
      = 919820013179465 / 17592186044416 := by
    rw [roundB64_eq_of (14717120210871441 / 281474976710656 : ℚ) 5
      (by norm_num) (by norm_num) (by norm_num) (by norm_num) (by norm_num)]
    norm_num [roundHalfEven]
  have hA18 : roundB64 (937412199223881 / 17592186044416 : ℚ)
      = 937412199223881 / 17592186044416 := by
    rw [roundB64_eq_of (937412199223881 / 17592186044416 : ℚ) 5
      (by norm_num) (by norm_num) (by norm_num) (by norm_num) (by norm_num)]
    norm_num [roundHalfEven]
  have hA19 : roundB64 (7 : ℚ) = 7 := by
    rw [roundB64_eq_of (7 : ℚ) 2 (by norm_num) (by norm_num)
      (by norm_num) (by norm_num) (by norm_num)]
    norm_num [roundHalfEven]
  have hA20 : roundB64 (34339947158700029 / 562949953421312 : ℚ)
      = 8584986789675007 / 140737488355328 := by
    rw [roundB64_eq_of (34339947158700029 / 562949953421312 : ℚ) 5
      (by norm_num) (by norm_num) (by norm_num) (by norm_num) (by norm_num)]
    norm_num [roundHalfEven]
  have hA21 : roundB64 (8725724278030335 / 140737488355328 : ℚ)
      = 8725724278030335 / 140737488355328 := by
    rw [roundB64_eq_of (8725724278030335 / 140737488355328 : ℚ) 5
      (by norm_num) (by norm_num) (by norm_num) (by norm_num) (by norm_num)]
    norm_num [roundHalfEven]
  have hA22 : roundB64 (9007199254740993 : ℚ) = 9007199254740992 := by
    rw [roundB64_eq_of (9007199254740993 : ℚ) 53 (by norm_num) (by norm_num)
      (by norm_num) (by norm_num) (by norm_num)]
    norm_num [roundHalfEven]
  have hA23 : roundB64 (9007199254740992 : ℚ) = 9007199254740992 := by
    rw [roundB64_eq_of (9007199254740992 : ℚ) 53 (by norm_num) (by norm_num)
      (by norm_num) (by norm_num) (by norm_num)]
    norm_num [roundHalfEven]
  have hc1 : pick_values_uniform 1 62 8 = [1, 9, 18, 27, 35, 44, 53, 61] := by
    simp only [pick_values_uniform]
    rw [show List.range (8 : ℤ).toNat = [0, 1, 2, 3, 4, 5, 6, 7] from rfl]
    simp only [List.map_cons, List.map_nil]
    norm_num
    simp only [hA0, hA1, hA4, hA7, hA10, hA13, hA16, hA19, hz]
    norm_num
    simp only [hz, hA1, hA2, hA5, hA8, hA11, hA14, hA17, hA20]
    norm_num
    simp only [hA1, hA3, hA6, hA9, hA12, hA15, hA18, hA21]
    norm_num [pyint]
    decide
  have hc2 : pick_values_uniform 9007199254740993 9007199254740994 2
      = [9007199254740992] := by
    simp only [pick_values_uniform]
    rw [show List.range (2 : ℤ).toNat = [0, 1] from rfl]
    simp only [List.map_cons, List.map_nil]
    norm_num
    simp only [hA22, hA1, hz]
    norm_num
    simp only [hz, hA1]
    norm_num
    simp only [hA22, hA23]
    norm_num [pyint]
    decide
  refine ⟨hc1, by rw [hc1]; decide, hc2, by rw [hc2]; decide, ?_⟩
  rw [hc2]
  decide

/-- C10 (amended): under binary64 float arithmetic, `pick_values_uniform`
still returns a strictly increasing list of distinct integers, with at least
one and at most `length` elements, each of which is the truncation of one of
the float-computed sample points; because of floating-point rounding the
first and last elements need not be `start` and `end`, and elements can fall
outside `[start, end]` (see the counterexample). -/
theorem C10_pick_values_uniform_float_spec (start endv length : ℤ)
    (h1 : 1 ≤ start) (h2 : start ≤ endv) (h3 : 2 ≤ length) :
    (pick_values_uniform start endv length).Sorted (· < ·) ∧
    (pick_values_uniform start endv length).Nodup ∧
    1 ≤ (pick_values_uniform start endv length).length ∧
    ((pick_values_uniform start endv length).length : ℤ) ≤ length ∧
    (∀ x ∈ pick_values_uniform start endv length, ∃ i : ℕ, (i : ℤ) < length ∧
      x = pyint (roundB64 (roundB64 (start : ℚ) + roundB64 (roundB64 (i : ℚ) *
        roundB64 (((endv : ℚ) - (start : ℚ)) / ((length : ℚ) - 1)))))) := by
  have hdef : pick_values_uniform start endv length =
      sortInts ((((List.range length.toNat).map
        (fun i : ℕ => roundB64 (roundB64 (start : ℚ) +
          roundB64 (roundB64 (i : ℚ) *
            roundB64 (((endv : ℚ) - (start : ℚ)) / ((length : ℚ) - 1)))))).map
        pyint).dedup) := rfl
  have hperm := sortInts_perm ((((List.range length.toNat).map
    (fun i : ℕ => roundB64 (roundB64 (start : ℚ) +
      roundB64 (roundB64 (i : ℚ) *
        roundB64 (((endv : ℚ) - (start : ℚ)) / ((length : ℚ) - 1)))))).map
    pyint).dedup)
  have hnd : (pick_values_uniform start endv length).Nodup := by
    rw [hdef]
    exact hperm.nodup_iff.mpr (List.nodup_dedup _)
  have hlen : (pick_values_uniform start endv length).length ≤
      length.toNat := by
    rw [hdef, hperm.length_eq]
    calc ((((List.range length.toNat).map _).map pyint).dedup).length
        ≤ (((List.range length.toNat).map _).map pyint).length :=
          (List.dedup_sublist _).length_le
      _ = length.toNat := by rw [List.length_map, List.length_map,
          List.length_range]
  have hne : pick_values_uniform start endv length ≠ [] := by
    rw [hdef]
    intro hcon
    have hd0 : ((((List.range length.toNat).map
        (fun i : ℕ => roundB64 (roundB64 (start : ℚ) +
          roundB64 (roundB64 (i : ℚ) *
            roundB64 (((endv : ℚ) - (start : ℚ)) / ((length : ℚ) - 1)))))).map
        pyint).dedup) = [] := by
      have hp := hperm.symm
      rw [hcon] at hp
      exact hp.eq_nil
    rw [List.dedup_eq_nil] at hd0
    have hlen0 := congrArg List.length hd0
    rw [List.length_map, List.length_map, List.length_range] at hlen0
    simp at hlen0
    omega
  refine ⟨?_, hnd, ?_, ?_, ?_⟩
  · rw [hdef]
    exact (sortInts_sorted _).lt_of_le (hdef ▸ hnd)
  · exact List.length_pos.mpr hne
  · omega
  · intro x hx
    rw [hdef, hperm.mem_iff, List.mem_dedup, List.mem_map] at hx
    rcases hx with ⟨q, hq, hpy⟩
    rw [List.mem_map] at hq
    rcases hq with ⟨i, hi, hf⟩
    rw [List.mem_range] at hi
    exact ⟨i, by omega, by rw [← hpy, ← hf]⟩

/-- C10 witness: the amended theorem applied at `start = 1`, `endv = 62`,
`length = 8`, the counterexample's input. -/
theorem C10_pick_values_uniform_float_spec_witness :
    (1 : ℤ) ≤ 1 ∧ (1 : ℤ) ≤ 62 ∧ (2 : ℤ) ≤ 8 ∧
    ((pick_values_uniform 1 62 8).Sorted (· < ·) ∧
    (pick_values_uniform 1 62 8).Nodup ∧
    1 ≤ (pick_values_uniform 1 62 8).length ∧
    ((pick_values_uniform 1 62 8).length : ℤ) ≤ 8 ∧
    (∀ x ∈ pick_values_uniform 1 62 8, ∃ i : ℕ, (i : ℤ) < 8 ∧
      x = pyint (roundB64 (roundB64 ((1 : ℤ) : ℚ) +
        roundB64 (roundB64 (i : ℚ) *
          roundB64 ((((62 : ℤ) : ℚ) - ((1 : ℤ) : ℚ)) /
            (((8 : ℤ) : ℚ) - 1))))))) :=
  ⟨by norm_num, by norm_num, by norm_num,
   C10_pick_values_uniform_float_spec 1 62 8 (by norm_num) (by norm_num)
     (by norm_num)⟩
